import Mathlib

/-!
Shallow embedding of the DUNE AUV safety supervisor
(`Supervisors::AUV::Safety::Task`, `src/unnamed/part_000`).

The task's mutable fields become an explicit state record; each `consume`
handler becomes a state transformer; the periodic `task` method becomes a
function from arguments and state to a new state plus the observable outputs
of the tick (the dispatched plan-generation request, if any, and whether the
entity state was set to active).

Library primitives that the repository uses but whose sources are not under
`src/` (`DUNE::Time::Counter`, `Monitors::MediumHandler`, the WGS84 distance
computation) are modelled from the specification, as marked on each
definition.
-/

namespace AUVSafety

/-- Time to wait to check conditions after failed attempt (`c_fail_timeout`). -/
def c_fail_timeout : ℚ := 60

/-- Distance to safety position threshold (`c_safety_dist`). -/
def c_safety_dist : ℚ := 50

/-- Modelled from the spec: the resettable count-up timer (`Counter`), DUNE
library code not under `src/`: a `threshold` and the `elapsed` time since the
last reset. -/
structure Counter where
  threshold : ℚ
  elapsed : ℚ
deriving DecidableEq, Repr

/-- Modelled from the spec: `overflowed() == (elapsed-since-reset >= threshold)`. -/
def Counter.overflow (c : Counter) : Bool :=
  decide (c.threshold ≤ c.elapsed)

/-- Modelled from the spec: `reset()` sets elapsed time to zero. -/
def Counter.reset (c : Counter) : Counter :=
  { c with elapsed := 0 }

/-- Modelled from the spec: the vehicle medium tracked by
`Monitors::MediumHandler` (DUNE library code not under `src/`):
unknown / in air / on water surface / underwater. -/
inductive Medium
  | unknown
  | air
  | water
  | underwater
deriving DecidableEq, Repr

/-- Modelled from the spec: `MediumHandler::update` stores the medium reported
by the event ("latest value wins", no validation). -/
def Medium.update (_cur : Medium) (reported : Medium) : Medium :=
  reported

/-- Modelled from the spec: `inWater = water-surface ∨ underwater`. -/
def Medium.inWater : Medium → Bool
  | .water => true
  | .underwater => true
  | _ => false

/-- Modelled from the spec: `isUnderwater = underwater`. -/
def Medium.isUnderwater : Medium → Bool
  | .underwater => true
  | _ => false

/-- States of `IMC::PlanControlState::state` relevant to the task. -/
inductive PCSState
  | blocked
  | ready
  | initializing
  | executing
deriving DecidableEq, Repr

/-- Values of `IMC::PlanControlState::last_outcome` relevant to the task. -/
inductive LastOutcome
  | none
  | success
  | failure
deriving DecidableEq, Repr

/-- Values of `IMC::VehicleState::op_mode`. -/
inductive OpMode
  | service
  | calibration
  | error
  | maneuver
  | external
  | boot
deriving DecidableEq, Repr

/-- Readiness bit `GOT_VSTATE` (got vehicle state). -/
def GOT_VSTATE : Nat := 0x01

/-- Readiness bit `GOT_MEDIUM` (got vehicle medium). -/
def GOT_MEDIUM : Nat := 0x02

/-- Readiness bit `GOT_PCS` (got plan control state). -/
def GOT_PCS : Nat := 0x04

/-- Readiness mask `GOT_ALL`. -/
def GOT_ALL : Nat := 0x07

/-- Readiness mask `GOT_NOTHING`. -/
def GOT_NOTHING : Nat := 0x00

/-- Task arguments (`struct Arguments`): heartbeat timeout, keep station at
surface, ascend with actuation. -/
structure Arguments where
  timeout : ℚ
  sk : Bool
  asc : Bool
deriving DecidableEq, Repr

/-- The outbound `IMC::PlanGeneration` request as dispatched.  The operation
(`OP_REQUEST`) and command (`CMD_EXECUTE`) fields are constants installed by
`onResourceInitialization` and never changed, so only the plan identifier and
the parameter string are kept. -/
structure PlanGeneration where
  plan_id : String
  params : String
deriving DecidableEq, Repr

/-- The parameter string installed by `onResourceInitialization`. -/
def pg_params : String := "calibrate=false;ignore_errors=true"

/-- The mutable fields of `struct Task`.  `m_pg.plan_id` is excluded: it is a
scratch buffer that every dispatch path overwrites before dispatching and that
is never read between ticks, so it is kept local to the tick function. -/
structure TaskState where
  lost_coms_timer : Counter
  fail_timer : Counter
  medium : Medium
  serv_err : Bool
  pcs_state : PCSState
  pcs_last_outcome : LastOutcome
  dr : Nat
  is_near : Bool
  issued : Bool
  safety : Bool
deriving DecidableEq, Repr

/-- The constructor `Task::Task`: `m_serv_err` false, `m_dr = GOT_NOTHING`,
`m_is_near` true, `m_issued` false, `m_safety` false.  The timers are
default-constructed objects whose thresholds are installed later
(`onUpdateParameters` / `onResourceInitialization`), so they are parameters;
the medium handler starts unknown and the plan control snapshot is the
zero-initialized message (`PCS_BLOCKED`, `LPO_NONE`). -/
def initState (lost fail : Counter) : TaskState :=
  { lost_coms_timer := lost
    fail_timer := fail
    medium := Medium.unknown
    serv_err := false
    pcs_state := PCSState.blocked
    pcs_last_outcome := LastOutcome.none
    dr := GOT_NOTHING
    is_near := true
    issued := false
    safety := false }

/-- Handler `consume(IMC::EstimatedState)`.  The source converts the state to
WGS84 and computes `WGS84::distance` to the hardcoded reference point
`rlat = rlon = 0` (the safety location is never configured); that geodetic
computation, performed by library code not under `src/`, is abstracted by
taking the resulting distance `dist` as the event's datum. -/
def consume_EstimatedState (dist : ℚ) (s : TaskState) : TaskState :=
  if c_safety_dist < dist then { s with is_near := false }
  else { s with is_near := true }

/-- Handler `consume(IMC::Heartbeat)`: `src` is the message's source address,
`sysId` the local system id (`getSystemId()`); `0x4000` is the console role
bit tested by the source. -/
def consume_Heartbeat (sysId src : Nat) (s : TaskState) : TaskState :=
  if src = sysId then s
  else if src &&& 0x4000 = 0 then s
  else { s with lost_coms_timer := s.lost_coms_timer.reset }

/-- Handler `consume(IMC::PlanControl)`: another system is managing this one. -/
def consume_PlanControl (sysId src : Nat) (s : TaskState) : TaskState :=
  if src ≠ sysId then { s with issued := false, safety := false }
  else s

/-- Handler `consume(IMC::PlanControlState)`. -/
def consume_PlanControlState (st : PCSState) (lo : LastOutcome) (s : TaskState) :
    TaskState :=
  { s with dr := s.dr ||| GOT_PCS, pcs_state := st, pcs_last_outcome := lo }

/-- Handler `consume(IMC::VehicleState)`. -/
def consume_VehicleState (m : OpMode) (s : TaskState) : TaskState :=
  let s1 := if m ≠ OpMode.boot then { s with dr := s.dr ||| GOT_VSTATE } else s
  { s1 with serv_err := decide (m = OpMode.service ∨ m = OpMode.error) }

/-- Handler `consume(IMC::VehicleMedium)`: update the medium handler, set the
medium readiness bit, and reset the lost communications timer when the vehicle
is underwater. -/
def consume_VehicleMedium (m : Medium) (s : TaskState) : TaskState :=
  let s1 := { s with dr := s.dr ||| GOT_MEDIUM, medium := s.medium.update m }
  if s1.medium.isUnderwater then
    { s1 with lost_coms_timer := s1.lost_coms_timer.reset }
  else s1

/-- Predicate `Task::isIdle`: the plan control state is blocked or ready. -/
def isIdle (s : TaskState) : Bool :=
  decide (s.pcs_state = PCSState.blocked ∨ s.pcs_state = PCSState.ready)

/-- Predicate `Task::hasFailed`: the last plan outcome is failure. -/
def hasFailed (s : TaskState) : Bool :=
  decide (s.pcs_last_outcome = LastOutcome.failure)

/-- Predicate `Task::isNear`. -/
def isNear (s : TaskState) : Bool :=
  s.is_near

/-- Verdict `Task::isSafe`, transcribing the early-return chain of the source. -/
def isSafe (s : TaskState) : Bool :=
  if isNear s then true
  else if s.safety then true
  else if !s.lost_coms_timer.overflow then true
  else if s.serv_err && isIdle s then false
  else if s.issued then false
  else true

/-- Observable result of one periodic tick: the new state, the dispatched
plan generation request when there is one, and whether the entity state was
set to `CODE_ACTIVE`. -/
structure TickOutput where
  st : TaskState
  dispatched : Option PlanGeneration
  set_active : Bool
deriving DecidableEq, Repr

/-- Method `Task::goToSafety`: mark safety mode and dispatch the
`safety_zone` plan generation request. -/
def goToSafety (s : TaskState) : TickOutput :=
  { st := { s with safety := true }
    dispatched := some { plan_id := "safety_zone", params := pg_params }
    set_active := false }

/-- Tail of `Task::task` after the failure bookkeeping: medium-dependent gate
and identifier suffix, then dispatch with `m_issued = true` and active entity
status.  `pfx` is the content of `m_pg.plan_id` at this point (empty or
`"safety_"`). -/
def taskDispatch (args : Arguments) (pfx : String) (s : TaskState) : TickOutput :=
  if s.medium.isUnderwater then
    if !args.asc then { st := s, dispatched := none, set_active := false }
    else
      { st := { s with issued := true }
        dispatched := some { plan_id := pfx ++ "surface", params := pg_params }
        set_active := true }
  else
    if !args.sk then { st := s, dispatched := none, set_active := false }
    else
      { st := { s with issued := true }
        dispatched := some { plan_id := pfx ++ "sk", params := pg_params }
        set_active := true }

/-- The periodic method `Task::task`. -/
def task (args : Arguments) (s : TaskState) : TickOutput :=
  if s.dr ≠ GOT_ALL then { st := s, dispatched := none, set_active := false }
  else if !s.medium.inWater then { st := s, dispatched := none, set_active := false }
  else if !isSafe s then
    goToSafety { s with lost_coms_timer := s.lost_coms_timer.reset }
  else if !args.sk && !args.asc then { st := s, dispatched := none, set_active := false }
  else if !s.serv_err then { st := s, dispatched := none, set_active := false }
  else if !isIdle s then { st := s, dispatched := none, set_active := false }
  else if hasFailed s then
    if !s.fail_timer.overflow then { st := s, dispatched := none, set_active := false }
    else taskDispatch args "safety_" { s with fail_timer := s.fail_timer.reset }
  else taskDispatch args "" s

/-- Inbound signal-update events, one per consumer bound by the constructor. -/
inductive Event
  | estimatedState (dist : ℚ)
  | heartbeat (src : Nat)
  | planControl (src : Nat)
  | planControlState (st : PCSState) (lo : LastOutcome)
  | vehicleState (m : OpMode)
  | vehicleMedium (m : Medium)
deriving DecidableEq, Repr

/-- Apply one inbound event through its consumer. -/
def applyEvent (sysId : Nat) (e : Event) (s : TaskState) : TaskState :=
  match e with
  | .estimatedState d => consume_EstimatedState d s
  | .heartbeat src => consume_Heartbeat sysId src s
  | .planControl src => consume_PlanControl sysId src s
  | .planControlState st lo => consume_PlanControlState st lo s
  | .vehicleState m => consume_VehicleState m s
  | .vehicleMedium m => consume_VehicleMedium m s

/-- Default arguments: 600 s timeout, keep station and ascend enabled. -/
def defaultArgs : Arguments :=
  { timeout := 600, sk := true, asc := true }

/-- Sample state: all data received, at surface, far from the safety point,
console link lost, vehicle in service with an idle plan: an unsafe tick. -/
def sUnsafe : TaskState :=
  { lost_coms_timer := { threshold := 600, elapsed := 700 }
    fail_timer := { threshold := 60, elapsed := 0 }
    medium := Medium.water
    serv_err := true
    pcs_state := PCSState.ready
    pcs_last_outcome := LastOutcome.none
    dr := GOT_ALL
    is_near := false
    issued := false
    safety := false }

/-- Sample state: as `sUnsafe` but near the safety point, hence a safe tick
that keeps station at the surface. -/
def sSafe : TaskState :=
  { sUnsafe with is_near := true }

/-- Sample state: safety mode already active. -/
def sSafetyMode : TaskState :=
  { sUnsafe with safety := true }

/-- Sample state with both self-command flags raised. -/
def sFlags : TaskState :=
  { sUnsafe with issued := true, safety := true }

/-- C1: the tick safety verdict `isSafe` evaluates its conditions in priority
order and returns: true if near-safety-position holds; else true if
safety-mode-active holds; else true if the lost-comms timer has not
overflowed; else false if service-or-error holds and the plan-control phase is
idle; else false if command-issued holds; else true. -/
theorem c1_isSafe_priority_order (s : TaskState) :
    isSafe s =
      (if s.is_near = true then true
       else if s.safety = true then true
       else if s.lost_coms_timer.overflow = false then true
       else if s.serv_err = true ∧ isIdle s = true then false
       else if s.issued = true then false
       else true) := by
  unfold isSafe isNear
  by_cases h1 : s.is_near = true <;>
    by_cases h2 : s.safety = true <;>
    by_cases h3 : s.lost_coms_timer.overflow = true <;>
    by_cases h4 : s.serv_err = true <;>
    by_cases h5 : isIdle s = true <;>
    by_cases h6 : s.issued = true <;>
    simp [h1, h2, h3, h4, h5, h6]

/-- C3: on an unsafe-verdict tick with readiness complete and the vehicle in
water, the supervisor resets the lost-comms timer, sets safety-mode-active,
dispatches exactly one execute-plan request `safety_zone` with parameters
`calibrate=false;ignore_errors=true`, and does nothing else that tick. -/
theorem c3_unsafe_tick_goes_to_safety (args : Arguments) (s : TaskState)
    (hdr : s.dr = GOT_ALL) (hw : s.medium.inWater = true)
    (hs : isSafe s = false) :
    task args s =
      { st := { s with lost_coms_timer := s.lost_coms_timer.reset, safety := true }
        dispatched := some { plan_id := "safety_zone"
                             params := "calibrate=false;ignore_errors=true" }
        set_active := false } := by
  simp [task, goToSafety, pg_params, hdr, hw, hs]

/-- Witness for C3: the concrete unsafe state is sent to the safety zone. -/
theorem c3_witness :
    sUnsafe.dr = GOT_ALL ∧ sUnsafe.medium.inWater = true ∧ isSafe sUnsafe = false ∧
    task defaultArgs sUnsafe =
      { st := { sUnsafe with lost_coms_timer := sUnsafe.lost_coms_timer.reset
                             safety := true }
        dispatched := some { plan_id := "safety_zone"
                             params := "calibrate=false;ignore_errors=true" }
        set_active := false } :=
  ⟨rfl, rfl, by decide, c3_unsafe_tick_goes_to_safety defaultArgs sUnsafe rfl rfl (by decide)⟩

/-- C4: while any of the three readiness bits is unset, or the vehicle is not
in water, a tick dispatches nothing and leaves the state unchanged; this holds
for every state, so the engine never dispatches before all three readiness
bits are set along any sequence of updates and ticks. -/
theorem c4_no_action_before_readiness (args : Arguments) (s : TaskState)
    (h : s.dr &&& GOT_VSTATE = 0 ∨ s.dr &&& GOT_MEDIUM = 0 ∨ s.dr &&& GOT_PCS = 0 ∨
        s.medium.inWater = false) :
    task args s = { st := s, dispatched := none, set_active := false } := by
  by_cases hdr : s.dr = GOT_ALL
  · have hw : s.medium.inWater = false := by
      rcases h with h | h | h | h
      · rw [hdr] at h; exact absurd h (by decide)
      · rw [hdr] at h; exact absurd h (by decide)
      · rw [hdr] at h; exact absurd h (by decide)
      · exact h
    simp [task, hdr, hw]
  · simp [task, hdr]

/-- Witness for C4: the freshly constructed state (no readiness bit set)
produces no action on a tick. -/
theorem c4_witness :
    task defaultArgs (initState ⟨600, 0⟩ ⟨60, 0⟩) =
      { st := initState ⟨600, 0⟩ ⟨60, 0⟩, dispatched := none, set_active := false } :=
  c4_no_action_before_readiness defaultArgs (initState ⟨600, 0⟩ ⟨60, 0⟩)
    (Or.inl (by decide))

/-- C5: an inbound signal-update event resets the lost-comms timer exactly
when it is a heartbeat from another system carrying the console role bit, or a
medium update reporting the underwater medium; every other event leaves the
timer untouched. -/
theorem c5_lost_coms_timer_reset_characterization (sysId : Nat) (e : Event)
    (s : TaskState) :
    (applyEvent sysId e s).lost_coms_timer =
      (if (match e with
           | Event.heartbeat src =>
               !(decide (src = sysId)) && !(decide (src &&& 0x4000 = 0))
           | Event.vehicleMedium m => decide (m = Medium.underwater)
           | _ => false) = true
       then s.lost_coms_timer.reset
       else s.lost_coms_timer) := by
  cases e with
  | estimatedState d =>
      by_cases hd : c_safety_dist < d <;>
        simp [applyEvent, consume_EstimatedState, hd]
  | heartbeat src =>
      by_cases h1 : src = sysId
      · simp [applyEvent, consume_Heartbeat, h1]
      · by_cases h2 : src &&& 0x4000 = 0 <;>
          simp [applyEvent, consume_Heartbeat, h1, h2]
  | planControl src =>
      by_cases h1 : src = sysId <;> simp [applyEvent, consume_PlanControl, h1]
  | planControlState st lo =>
      simp [applyEvent, consume_PlanControlState]
  | vehicleState m =>
      by_cases h1 : m = OpMode.boot <;> simp [applyEvent, consume_VehicleState, h1]
  | vehicleMedium m =>
      cases m <;>
        simp [applyEvent, consume_VehicleMedium, Medium.update, Medium.isUnderwater]

/-- C6: a plan-command whose issuer is not the supervisor's own system
identity clears both command-issued and safety-mode-active; one from the own
identity leaves both unchanged. -/
theorem c6_external_plan_command_clears_flags (sysId src : Nat) (s : TaskState) :
    (src ≠ sysId →
        (consume_PlanControl sysId src s).issued = false ∧
        (consume_PlanControl sysId src s).safety = false) ∧
    (src = sysId →
        (consume_PlanControl sysId src s).issued = s.issued ∧
        (consume_PlanControl sysId src s).safety = s.safety) := by
  constructor
  · intro h
    simp [consume_PlanControl, h]
  · intro h
    simp [consume_PlanControl, h]

/-- Witness for C6: with both flags raised, a foreign plan-command (issuer 2,
own identity 1) clears them, while an own plan-command leaves them raised. -/
theorem c6_witness :
    ((consume_PlanControl 1 2 sFlags).issued = false ∧
     (consume_PlanControl 1 2 sFlags).safety = false) ∧
    ((consume_PlanControl 1 1 sFlags).issued = sFlags.issued ∧
     (consume_PlanControl 1 1 sFlags).safety = sFlags.safety) :=
  ⟨(c6_external_plan_command_clears_flags 1 2 sFlags).1 (by decide),
   (c6_external_plan_command_clears_flags 1 1 sFlags).2 rfl⟩

/-- C7: the source has no notion of a defined safety location — the handler
for a position fix always measures the distance to the hardcoded origin and
stores `near = (distance ≤ 50)`.  At a fix 100 distance units from the origin,
with the safety location never configured, near-safety-position becomes
false, contradicting the claim (and the `isNear` doc comment / `@todo` in the
source, which say an undefined safety location counts as near). -/
theorem c7_undefined_location_still_goes_far :
    (consume_EstimatedState 100 (initState ⟨600, 0⟩ ⟨60, 0⟩)).is_near = false := by
  decide

/-- C9 counterexample: the claim as stated is false at the freshly
constructed state, whose near-safety-position field is initialized to true,
not false. -/
theorem c9_counterexample :
    ¬ ((initState ⟨600, 0⟩ ⟨60, 0⟩).dr = GOT_NOTHING ∧
       (initState ⟨600, 0⟩ ⟨60, 0⟩).serv_err = false ∧
       (initState ⟨600, 0⟩ ⟨60, 0⟩).issued = false ∧
       (initState ⟨600, 0⟩ ⟨60, 0⟩).safety = false ∧
       (initState ⟨600, 0⟩ ⟨60, 0⟩).is_near = false) := by
  decide

/-- C9 (amended): at startup the readiness bitmask is empty, service-or-error,
command-issued and safety-mode-active are false, and near-safety-position is
initialized to true (treated as near until a position fix proves otherwise). -/
theorem c9_initial_state (lost fail : Counter) :
    (initState lost fail).dr = GOT_NOTHING ∧
    (initState lost fail).serv_err = false ∧
    (initState lost fail).issued = false ∧
    (initState lost fail).safety = false ∧
    (initState lost fail).is_near = true :=
  ⟨rfl, rfl, rfl, rfl, rfl⟩

/-- C2: on a safe-verdict tick with readiness complete and the vehicle in
water, a dispatch happens only under (keep-station or ascend enabled) with
service-or-error and an idle plan phase; the dispatched identifier is exactly
one of "surface", "sk", "safety_surface", "safety_sk" under the stated medium,
configuration and failure conditions (the safety-prefixed ones only once the
fail-retry timer overflowed, which is then reset); after a failure with the
fail-retry timer not overflowed nothing is dispatched; every dispatch sets
command-issued and reports active status. -/
theorem c2_safe_tick_dispatch (args : Arguments) (s : TaskState)
    (hdr : s.dr = GOT_ALL) (hw : s.medium.inWater = true)
    (hsafe : isSafe s = true) :
    (∀ pg, (task args s).dispatched = some pg →
        (args.sk = true ∨ args.asc = true) ∧ s.serv_err = true ∧ isIdle s = true) ∧
    (∀ pg, (task args s).dispatched = some pg →
        (pg.plan_id = "surface" ∧ s.medium.isUnderwater = true ∧ args.asc = true ∧
            hasFailed s = false) ∨
        (pg.plan_id = "sk" ∧ s.medium.isUnderwater = false ∧ args.sk = true ∧
            hasFailed s = false) ∨
        (pg.plan_id = "safety_surface" ∧ s.medium.isUnderwater = true ∧
            args.asc = true ∧ hasFailed s = true ∧ s.fail_timer.overflow = true ∧
            (task args s).st.fail_timer = s.fail_timer.reset) ∨
        (pg.plan_id = "safety_sk" ∧ s.medium.isUnderwater = false ∧
            args.sk = true ∧ hasFailed s = true ∧ s.fail_timer.overflow = true ∧
            (task args s).st.fail_timer = s.fail_timer.reset)) ∧
    (hasFailed s = true → s.fail_timer.overflow = false →
        (task args s).dispatched = none) ∧
    (∀ pg, (task args s).dispatched = some pg →
        (task args s).st.issued = true ∧ (task args s).set_active = true) := by
  unfold task taskDispatch
  by_cases hsk : args.sk = true <;>
    by_cases hasc : args.asc = true <;>
    by_cases hse : s.serv_err = true <;>
    by_cases hid : isIdle s = true <;>
    by_cases hfl : hasFailed s = true <;>
    by_cases hov : s.fail_timer.overflow = true <;>
    by_cases hu : s.medium.isUnderwater = true <;>
    simp [hdr, hw, hsafe, hsk, hasc, hse, hid, hfl, hov, hu]

/-- Witness for C2: the concrete safe state at the surface keeps station and
the dispatch raises command-issued and reports active status. -/
theorem c2_witness :
    (task defaultArgs sSafe).st.issued = true ∧
    (task defaultArgs sSafe).set_active = true :=
  (c2_safe_tick_dispatch defaultArgs sSafe rfl rfl (by decide)).2.2.2
    { plan_id := "sk", params := pg_params } (by decide)

/-- C8: once safety mode is active the verdict short-circuits to safe, safety
mode stays active across the tick, and no further `safety_zone` request can be
dispatched by a tick. -/
theorem c8_safety_dispatch_idempotent (args : Arguments) (s : TaskState)
    (h : s.safety = true) :
    isSafe s = true ∧ (task args s).st.safety = true ∧
      ∀ pg, (task args s).dispatched = some pg → pg.plan_id ≠ "safety_zone" := by
  have hsafe : isSafe s = true := by
    unfold isSafe
    by_cases h1 : isNear s = true <;> simp [h1, h]
  refine ⟨hsafe, ?_⟩
  unfold task taskDispatch
  by_cases hdr : s.dr = GOT_ALL <;>
    by_cases hw : s.medium.inWater = true <;>
    by_cases hsk : args.sk = true <;>
    by_cases hasc : args.asc = true <;>
    by_cases hse : s.serv_err = true <;>
    by_cases hid : isIdle s = true <;>
    by_cases hfl : hasFailed s = true <;>
    by_cases hov : s.fail_timer.overflow = true <;>
    by_cases hu : s.medium.isUnderwater = true <;>
    simp [hdr, hw, hsafe, hsk, hasc, hse, hid, hfl, hov, hu, h]

/-- Witness for C8: in the concrete safety-mode state (console lost, far from
the safety point) the verdict is safe and safety mode persists. -/
theorem c8_witness :
    isSafe sSafetyMode = true ∧
    (task defaultArgs sSafetyMode).st.safety = true :=
  ⟨(c8_safety_dispatch_idempotent defaultArgs sSafetyMode rfl).1,
   (c8_safety_dispatch_idempotent defaultArgs sSafetyMode rfl).2.1⟩

/-- C10: on a safe-verdict tick that reaches the failure bookkeeping (some
holding behavior enabled, service-or-error, idle phase, last outcome failure,
fail-retry timer overflowed) but is then stopped by the medium gate
(underwater with ascend disabled, or at the surface with keep-station
disabled), the fail-retry timer is reset even though nothing is dispatched
and no other state field changes. -/
theorem c10_fail_timer_reset_without_dispatch (args : Arguments) (s : TaskState)
    (hdr : s.dr = GOT_ALL) (hw : s.medium.inWater = true)
    (hsafe : isSafe s = true) (hcfg : args.sk = true ∨ args.asc = true)
    (hse : s.serv_err = true) (hid : isIdle s = true)
    (hfl : hasFailed s = true) (hov : s.fail_timer.overflow = true)
    (hgate : (s.medium.isUnderwater = true ∧ args.asc = false) ∨
        (s.medium.isUnderwater = false ∧ args.sk = false)) :
    task args s =
      { st := { s with fail_timer := s.fail_timer.reset }
        dispatched := none
        set_active := false } := by
  rcases hgate with ⟨hu, ha⟩ | ⟨hu, ha⟩
  · have hsk : args.sk = true := by
      rcases hcfg with h | h
      · exact h
      · rw [ha] at h; exact absurd h (by decide)
    simp [task, taskDispatch, hdr, hw, hsafe, hsk, ha, hse, hid, hfl, hov, hu]
  · have hasc : args.asc = true := by
      rcases hcfg with h | h
      · rw [ha] at h; exact absurd h (by decide)
      · exact h
    simp [task, taskDispatch, hdr, hw, hsafe, hasc, ha, hse, hid, hfl, hov, hu]

/-- Witness for C10: underwater with ascend disabled and keep-station enabled,
after a failure with the fail-retry timer overflowed, the tick only resets the
fail-retry timer. -/
theorem c10_witness :
    task { timeout := 600, sk := true, asc := false }
        { sSafe with medium := Medium.underwater
                     pcs_last_outcome := LastOutcome.failure
                     fail_timer := { threshold := 60, elapsed := 60 } } =
      { st := { sSafe with medium := Medium.underwater
                           pcs_last_outcome := LastOutcome.failure
                           fail_timer := { threshold := 60, elapsed := 0 } }
        dispatched := none
        set_active := false } :=
  c10_fail_timer_reset_without_dispatch
    { timeout := 600, sk := true, asc := false }
    { sSafe with medium := Medium.underwater
                 pcs_last_outcome := LastOutcome.failure
                 fail_timer := { threshold := 60, elapsed := 60 } }
    rfl rfl (by decide) (Or.inl rfl) rfl (by decide) (by decide) (by decide)
    (Or.inl ⟨rfl, rfl⟩)

end AUVSafety
